import Mathlib

/-!
Shallow embedding of `src/kni.c` from the dperf repository: the KNI
(kernel NIC interface) subsystem bridging the DPDK fast path and the
Linux kernel.  External collaborators (DPDK library calls, libc,
ioctl/socket) are modelled by explicit environments recording their
outcomes; every function of `kni.c` becomes a pure Lean function over
those environments, returning its C result together with an event trace
of the external operations it invoked.
-/

set_option autoImplicit false

namespace Dperf

/-- `RTE_KNI_NAMESIZE` from DPDK `rte_kni.h` (external library constant). -/
def RTE_KNI_NAMESIZE : Nat := 32

/-- `RTE_MBUF_DEFAULT_DATAROOM` from DPDK `rte_mbuf_core.h` (external library constant). -/
def RTE_MBUF_DEFAULT_DATAROOM : Nat := 2048

/-- Modelled from the spec: `NB_RXD`, the fixed drain batch size used by
`kni_send`, is defined in repository headers not present under `src/`
("drains up to a fixed batch size of buffers"). -/
def NB_RXD : Nat := 4096

/-- `IFF_UP` from `linux/if.h` (external constant). -/
def IFF_UP : Nat := 1

/-- Modulus of the C `uint16_t` type, used where `kni.c` narrows `port->id`
to a `uint16_t port_id`. -/
def UINT16_MOD : Nat := 65536

/-- The fields of DPDK `struct rte_kni_conf` that `kni.c` writes. -/
structure rte_kni_conf where
  name : String
  group_id : Nat
  mbuf_size : Nat
  min_mtu : Nat
  max_mtu : Nat
  mtu : Nat
  mac_addr : List Nat
deriving DecidableEq, Repr

/-- `memset(&conf, 0, sizeof(conf))`: the all-zero configuration. -/
def zeroConf : rte_kni_conf :=
  { name := "", group_id := 0, mbuf_size := 0, min_mtu := 0, max_mtu := 0,
    mtu := 0, mac_addr := [0, 0, 0, 0, 0, 0] }

/-- A KNI handle as returned by `rte_kni_alloc`: we model it as carrying the
configuration it was created with (the kernel-side state this core derives). -/
structure rte_kni where
  conf : rte_kni_conf
deriving DecidableEq, Repr

/-- The fields of `struct netif_port` (from `port.h`) that `kni.c` reads or
writes: the numeric hardware id and the optional attached KNI handle.  The
mbuf pool is opaque to every property here and is omitted. -/
structure netif_port where
  id : Nat
  kni : Option rte_kni
deriving DecidableEq, Repr

/-- The fields of `struct config` that `kni.c` reads: the subsystem enable
flag `cfg->kni`, the name stem `cfg->kni_ifname`, and the ordered port list
`cfg->ports` (iterated by `config_for_each_port`). -/
structure config where
  kni : Bool
  kni_ifname : String
  ports : List netif_port
deriving DecidableEq, Repr

/-- The fields of DPDK `struct rte_eth_dev_info` that `kni.c` reads. -/
structure dev_info_t where
  min_mtu : Nat
  max_mtu : Nat
deriving DecidableEq, Repr

/-- Environment of hardware/DPDK outcomes for one port: result of
`rte_eth_dev_info_get` (`none` = nonzero return), of `rte_eth_dev_get_mtu`
(`none` = failure), of `rte_eth_macaddr_get` (`none` = nonzero return),
whether `rte_kni_alloc` succeeds, and whether `rte_kni_release` succeeds. -/
structure PortHw where
  dev_info : Option dev_info_t
  cur_mtu : Option Nat
  mac : Option (List Nat)
  allocOk : Bool
  releaseOk : Bool

/-- `snprintf(dst, n, ...)` keeps at most `n - 1` characters of the formatted
string (the last byte is the terminating NUL). -/
def strTake (n : Nat) (s : String) : String := String.mk (s.toList.take n)

/-- `kni_set_name` (kni.c:63): writes `cfg->kni_ifname` followed by the
port's zero-based index within `cfg->ports` (the pointer offset
`port - &cfg->ports[0]`, deliberately not `port->id`) into a buffer of
`RTE_KNI_NAMESIZE` bytes via `snprintf`. -/
def kni_set_name (cfg : config) (idx : Nat) : String :=
  strTake (RTE_KNI_NAMESIZE - 1) (cfg.kni_ifname ++ toString idx)

/-- `kni_set_mtu` (kni.c:34): hard-fails when `rte_eth_dev_info_get` fails;
copies the MTU bounds; calls `rte_eth_dev_get_mtu` and ignores its return
value (on failure `conf->mtu` is left unchanged). -/
def kni_set_mtu (hw : PortHw) (conf : rte_kni_conf) : Option rte_kni_conf :=
  match hw.dev_info with
  | none => none
  | some di =>
      let c := { conf with min_mtu := di.min_mtu, max_mtu := di.max_mtu }
      match hw.cur_mtu with
      | some m => some { c with mtu := m }
      | none => some c

/-- `kni_set_mac` (kni.c:51): fails iff `rte_eth_macaddr_get` fails. -/
def kni_set_mac (hw : PortHw) (conf : rte_kni_conf) : Option rte_kni_conf :=
  match hw.mac with
  | none => none
  | some a => some { conf with mac_addr := a }

/-- `kni_alloc` (kni.c:75): zero-initializes the conf, sets
`group_id = port_id` (the `uint16_t` narrowing of `port->id`), sets the
default mbuf size, derives the name from the list index, then runs the two
hardware queries and `rte_kni_alloc`; returns `none` (C: `NULL`) when any
of the three fails. `env` maps a `port_id` to its hardware outcomes. -/
def kni_alloc (cfg : config) (env : Nat → PortHw) (idx : Nat) (port : netif_port) :
    Option rte_kni :=
  let port_id := port.id % UINT16_MOD
  let conf0 := { zeroConf with
      group_id := port_id
      mbuf_size := RTE_MBUF_DEFAULT_DATAROOM
      name := kni_set_name cfg idx }
  match kni_set_mtu (env port_id) conf0 with
  | none => none
  | some c1 =>
      match kni_set_mac (env port_id) c1 with
      | none => none
      | some c2 => if (env port_id).allocOk then some ⟨c2⟩ else none

/-- Body of the `config_for_each_port` loop in `kni_create` (kni.c:185),
with `idx` the zero-based position of the current port in `cfg->ports`:
on the first port whose `kni_alloc` returns `NULL` the loop returns `-1`,
leaving that port and the remaining ports untouched; otherwise each handle
is attached with `port->kni = kni` and the loop returns `0`. The returned
list is the port list after the loop's mutations. -/
def kni_createAux (cfg : config) (env : Nat → PortHw) (idx : Nat) :
    List netif_port → Int × List netif_port
  | [] => (0, [])
  | p :: ps =>
      match kni_alloc cfg env idx p with
      | none => (-1, p :: ps)
      | some k =>
          let r := kni_createAux cfg env (idx + 1) ps
          (r.1, { p with kni := some k } :: r.2)

/-- `kni_create` (kni.c:179): `rte_kni_init` (no observable effect modelled)
then the per-port allocation loop over `cfg->ports`. -/
def kni_create (cfg : config) (env : Nat → PortHw) : Int × List netif_port :=
  kni_createAux cfg env 0 cfg.ports

/-- `kni_start` (kni.c:196): nothing happens when `cfg->kni` is unset. -/
def kni_start (cfg : config) (env : Nat → PortHw) : Int × List netif_port :=
  if cfg.kni then kni_create cfg env else (0, cfg.ports)

/-- Observable events of the teardown path: one `release pid ok` per
`rte_kni_release` call, and one `logMsg` per `printf` of a release failure. -/
inductive StopEvent where
  | release (pid : Nat) (ok : Bool)
  | logMsg (s : String)
deriving DecidableEq, Repr

/-- `kni_free` (kni.c:160): visits every port in list order; ports with
`port->kni == NULL` are skipped; otherwise `rte_kni_release` is attempted,
a failure is logged but the loop continues, and `port->kni = NULL` is set
regardless of the release outcome. -/
def kni_free (env : Nat → PortHw) : List netif_port → List netif_port × List StopEvent
  | [] => ([], [])
  | p :: ps =>
      let rest := kni_free env ps
      match p.kni with
      | none => (p :: rest.1, rest.2)
      | some _ =>
          let evs := if (env p.id).releaseOk then [StopEvent.release p.id true]
                     else [StopEvent.release p.id false, StopEvent.logMsg "failed to free kni"]
          ({ p with kni := none } :: rest.1, evs ++ rest.2)

/-- `kni_stop` (kni.c:205): `kni_free` when the subsystem is enabled,
otherwise nothing. -/
def kni_stop (cfg : config) (env : Nat → PortHw) : List netif_port × List StopEvent :=
  if cfg.kni then kni_free env cfg.ports else (cfg.ports, [])

/-- Environment of OS outcomes for one port during link-up: whether
`socket(PF_INET, SOCK_DGRAM, 0)` returns a valid fd, the flags returned by
`ioctl(SIOCGIFFLAGS)` (`none` = failure), and whether `ioctl(SIOCSIFFLAGS)`
succeeds. -/
structure LinkEnv where
  sockOk : Bool
  getFlagsRes : Option Nat
  setFlagsOk : Bool

/-- Observable events of the link-up path, in the order the OS calls are
made: opening the control socket, `SIOCGIFFLAGS` on a name (with its
result), `SIOCSIFFLAGS` on a name with the flags written (and its result),
closing the socket, and the `printf` error logs. -/
inductive LinkEvent where
  | sockOpen
  | getFlags (name : String) (res : Option Nat)
  | setFlags (name : String) (flags : Nat) (ok : Bool)
  | closeSock
  | logMsg (s : String)
deriving DecidableEq, Repr

/-- `kni_set_link_up` (kni.c:105): returns `0` at once when the port has no
KNI handle; opens a datagram socket (failure: return `-1`, nothing to
close); derives the interface name from the list index; reads the flags
(failure: log, close, `-1`); ORs in `IFF_UP` and writes the flags back
(failure: log, close, `-1`); on success closes the socket and returns `0`. -/
def kni_set_link_up (cfg : config) (lenv : Nat → LinkEnv) (idx : Nat) (p : netif_port) :
    Int × List LinkEvent :=
  match p.kni with
  | none => (0, [])
  | some _ =>
      let e := lenv p.id
      if e.sockOk then
        let name := kni_set_name cfg idx
        match e.getFlagsRes with
        | none =>
            (-1, [LinkEvent.sockOpen, LinkEvent.getFlags name none,
                  LinkEvent.logMsg "kni get flags error", LinkEvent.closeSock])
        | some flags =>
            let up := flags ||| IFF_UP
            if e.setFlagsOk then
              (0, [LinkEvent.sockOpen, LinkEvent.getFlags name (some flags),
                   LinkEvent.setFlags name up true, LinkEvent.closeSock])
            else
              (-1, [LinkEvent.sockOpen, LinkEvent.getFlags name (some flags),
                    LinkEvent.setFlags name up false,
                    LinkEvent.logMsg "kni set flags error", LinkEvent.closeSock])
      else (-1, [])

/-- Body of the `config_for_each_port` loop in `kni_link_up` (kni.c:151),
with `idx` the zero-based position of the current port: the first port whose
`kni_set_link_up` fails makes the whole call return `-1` immediately, the
remaining ports unprocessed. -/
def kni_link_upAux (cfg : config) (lenv : Nat → LinkEnv) (idx : Nat) :
    List netif_port → Int × List LinkEvent
  | [] => (0, [])
  | p :: ps =>
      let r := kni_set_link_up cfg lenv idx p
      if r.1 < 0 then (-1, r.2)
      else
        let rest := kni_link_upAux cfg lenv (idx + 1) ps
        (rest.1, r.2 ++ rest.2)

/-- `kni_link_up` (kni.c:147). -/
def kni_link_up (cfg : config) (lenv : Nat → LinkEnv) : Int × List LinkEvent :=
  kni_link_upAux cfg lenv 0 cfg.ports

/-- Steady-state counters this core increments.  `kni_rx` is
`net_stats_kni_rx` (kernel-direction submit success), `kni_tx` is
`net_stats_kni_tx` (one per buffer drained from the kernel), `drops` is the
drop counter incremented when a buffer is released via `mbuf_free2`. -/
structure Counters where
  kni_rx : Nat
  kni_tx : Nat
  drops : Nat
deriving DecidableEq, Repr

/-- Observable events of the packet bridge: `rte_kni_tx_burst` submitting
one buffer to the handle (which may be absent), `rte_kni_handle_request`
and `rte_kni_rx_burst` on the handle as passed (absent included),
releasing a buffer to its pool, and `work_space_tx_send` handing a buffer
to the physical-port transmit path.  Buffers are identified by a `Nat`. -/
inductive BridgeEvent where
  | kniTxBurst (h : Option rte_kni) (m : Nat)
  | kniHandleRequest (h : Option rte_kni)
  | kniRxBurst (h : Option rte_kni)
  | mbufFree (m : Nat)
  | txSend (m : Nat)
deriving DecidableEq, Repr

/-- Modelled from the spec: `mbuf_free2` (from `mbuf.h`, repository code not
under `src/`) releases the buffer back to its pool and increments the drop
counter ("release the buffer back to its pool and increment a ... counter"). -/
def mbuf_free2 (m : Nat) (c : Counters) : Counters × List BridgeEvent :=
  ({ c with drops := c.drops + 1 }, [BridgeEvent.mbufFree m])

/-- The fields of `struct work_space` that `kni.c` reads: the port. -/
structure work_space where
  port : netif_port
deriving DecidableEq, Repr

/-- `kni_recv` (kni.c:212): with an attached handle, submit the one buffer
via `rte_kni_tx_burst`; when accepted (`txAccept`), count `net_stats_kni_rx`
and return without touching the buffer again; otherwise, and also when the
port has no handle (no kernel call at all), release the buffer via
`mbuf_free2`. -/
def kni_recv (ws : work_space) (txAccept : Bool) (m : Nat) (c : Counters) :
    Counters × List BridgeEvent :=
  match ws.port.kni with
  | some k =>
      if txAccept then
        ({ c with kni_rx := c.kni_rx + 1 }, [BridgeEvent.kniTxBurst (some k) m])
      else
        let r := mbuf_free2 m c
        (r.1, BridgeEvent.kniTxBurst (some k) m :: r.2)
  | none => mbuf_free2 m c

/-- Loop body of `kni_send` (kni.c:241): for each drained buffer, one
`work_space_tx_send` hand-off followed by one `net_stats_kni_tx` increment. -/
def kni_sendLoop (c : Counters) : List Nat → Counters × List BridgeEvent
  | [] => (c, [])
  | m :: ms =>
      let r := kni_sendLoop { c with kni_tx := c.kni_tx + 1 } ms
      (r.1, BridgeEvent.txSend m :: r.2)

/-- `kni_send` (kni.c:229): reads `port->kni` without any NULL check, calls
`rte_kni_handle_request` on it, then `rte_kni_rx_burst` for at most `NB_RXD`
buffers, then the per-buffer transmit loop.  `queue` is the external kernel
state: the buffers the kernel has queued on the interface. -/
def kni_send (ws : work_space) (queue : List Nat) (c : Counters) :
    Counters × List BridgeEvent :=
  let kni := ws.port.kni
  let drained := queue.take NB_RXD
  let r := kni_sendLoop c drained
  (r.1, BridgeEvent.kniHandleRequest kni :: BridgeEvent.kniRxBurst kni :: r.2)

/-- The environment condition under which `kni_alloc` succeeds for a port:
`rte_eth_dev_info_get` succeeds, `rte_eth_macaddr_get` succeeds, and
`rte_kni_alloc` succeeds (the `rte_eth_dev_get_mtu` outcome is irrelevant). -/
def allocEnvOk (env : Nat → PortHw) (p : netif_port) : Bool :=
  (env (p.id % UINT16_MOD)).dev_info.isSome && (env (p.id % UINT16_MOD)).mac.isSome &&
    (env (p.id % UINT16_MOD)).allocOk

/-- The per-port events of `kni_free`: nothing for a port without a handle,
one release (plus a log on failure) for a port with one. -/
def stopEventsOf (env : Nat → PortHw) (p : netif_port) : List StopEvent :=
  match p.kni with
  | none => []
  | some _ =>
      if (env p.id).releaseOk then [StopEvent.release p.id true]
      else [StopEvent.release p.id false, StopEvent.logMsg "failed to free kni"]

/-- The environment condition under which `kni_set_link_up` returns `0` for
a port: either the port has no handle (skipped, counted as success) or all
three OS calls succeed. -/
def linkStepOk (lenv : Nat → LinkEnv) (p : netif_port) : Bool :=
  p.kni.isNone ||
    ((lenv p.id).sockOk && (lenv p.id).getFlagsRes.isSome && (lenv p.id).setFlagsOk)

/-- Concatenated link-up traces of a port segment starting at list index
`idx`. -/
def linkTraceOk (cfg : config) (lenv : Nat → LinkEnv) (idx : Nat) :
    List netif_port → List LinkEvent
  | [] => []
  | p :: ps => (kni_set_link_up cfg lenv idx p).2 ++ linkTraceOk cfg lenv (idx + 1) ps

/-- Discriminator for the socket-close event. -/
def isClose : LinkEvent → Bool
  | LinkEvent.closeSock => true
  | _ => false

/-- Discriminator for the socket-open event. -/
def isOpen : LinkEvent → Bool
  | LinkEvent.sockOpen => true
  | _ => false

/-- The spec's concrete scenario: two configured ports with hardware ids
5 and 2, name stem "kni", subsystem enabled. -/
def cfgScenario : config :=
  { kni := true, kni_ifname := "kni", ports := [⟨5, none⟩, ⟨2, none⟩] }

/-- An environment in which every hardware query and every DPDK call
succeeds. -/
def envAllOk : Nat → PortHw :=
  fun _ => { dev_info := some ⟨68, 1500⟩, cur_mtu := some 1500,
             mac := some [1, 2, 3, 4, 5, 6], allocOk := true, releaseOk := true }

/-- A configuration whose name stem (40 characters) cannot fit in an
interface name together with the index. -/
def cfgLongName : config :=
  { kni := true, kni_ifname := "aaaaaaaaaaaaaaaaaaaaaaaaaaaaaaaaaaaaaaaa",
    ports := [⟨0, none⟩] }

/-- An environment in which the MTU-bounds query fails for port id 2 and
everything succeeds elsewhere. -/
def envFailAt2 : Nat → PortHw :=
  fun n => if n = 2 then
      { dev_info := none, cur_mtu := some 1500, mac := some [1, 2, 3, 4, 5, 6],
        allocOk := true, releaseOk := true }
    else envAllOk n

/-- A sample KNI handle used by concrete teardown/link-up scenarios. -/
def kniSample : rte_kni := ⟨{ zeroConf with group_id := 5, name := "kni0" }⟩

/-- A stopped-subsystem scenario: one port with an attached handle whose
release fails. -/
def cfgStopW : config :=
  { kni := true, kni_ifname := "kni", ports := [⟨5, some kniSample⟩, ⟨9, none⟩] }

/-- An environment in which `rte_kni_release` fails for port id 5. -/
def envRelFail : Nat → PortHw :=
  fun n => if n = 5 then
      { dev_info := some ⟨68, 1500⟩, cur_mtu := some 1500,
        mac := some [1, 2, 3, 4, 5, 6], allocOk := true, releaseOk := false }
    else envAllOk n

/-- A link-up scenario: two ports with handles. -/
def cfgLinkW : config :=
  { kni := true, kni_ifname := "kni",
    ports := [⟨5, some kniSample⟩, ⟨2, some kniSample⟩] }

/-- A link environment: all OS calls succeed for port id 5 (current flags
2); the `SIOCGIFFLAGS` ioctl fails for port id 2. -/
def lenvW : Nat → LinkEnv :=
  fun n => if n = 5 then { sockOk := true, getFlagsRes := some 2, setFlagsOk := true }
    else { sockOk := true, getFlagsRes := none, setFlagsOk := true }

theorem strTake_eq_of_le (n : Nat) (s : String) (h : s.length ≤ n) : strTake n s = s :=
  (congrArg String.mk (List.take_of_length_le h)).trans rfl

theorem strTake_length_le (n : Nat) (s : String) : (strTake n s).length ≤ n := by
  show (s.toList.take n).length ≤ n
  rw [List.length_take]
  exact Nat.min_le_left n s.toList.length

theorem kni_alloc_isSome (cfg : config) (env : Nat → PortHw) (idx : Nat) (p : netif_port) :
    (kni_alloc cfg env idx p).isSome = allocEnvOk env p := by
  cases hd : (env (p.id % UINT16_MOD)).dev_info <;>
    cases hm : (env (p.id % UINT16_MOD)).cur_mtu <;>
      cases hmac : (env (p.id % UINT16_MOD)).mac <;>
        cases hao : (env (p.id % UINT16_MOD)).allocOk <;>
          simp [kni_alloc, kni_set_mtu, kni_set_mac, allocEnvOk, hd, hm, hmac, hao]

theorem kni_alloc_fields (cfg : config) (env : Nat → PortHw) (idx : Nat) (p : netif_port)
    (k : rte_kni) (h : kni_alloc cfg env idx p = some k) :
    k.conf.group_id = p.id % UINT16_MOD ∧ k.conf.name = kni_set_name cfg idx ∧
      k.conf.mbuf_size = RTE_MBUF_DEFAULT_DATAROOM := by
  cases hd : (env (p.id % UINT16_MOD)).dev_info <;>
    cases hm : (env (p.id % UINT16_MOD)).cur_mtu <;>
      cases hmac : (env (p.id % UINT16_MOD)).mac <;>
        cases hao : (env (p.id % UINT16_MOD)).allocOk <;>
          simp_all [kni_alloc, kni_set_mtu, kni_set_mac, hd, hm, hmac, hao] <;>
            (subst h; simp)

theorem kni_alloc_mtu_of_none (cfg : config) (env : Nat → PortHw) (idx : Nat)
    (p : netif_port) (hok : allocEnvOk env p = true)
    (hm : (env (p.id % UINT16_MOD)).cur_mtu = none) :
    ∃ k, kni_alloc cfg env idx p = some k ∧ k.conf.mtu = 0 := by
  cases hd : (env (p.id % UINT16_MOD)).dev_info <;>
    cases hmac : (env (p.id % UINT16_MOD)).mac <;>
      cases hao : (env (p.id % UINT16_MOD)).allocOk <;>
        simp_all [kni_alloc, kni_set_mtu, kni_set_mac, allocEnvOk, zeroConf, hd, hmac, hao, hm]

/-- C1: the shadow-interface name is the configured stem followed by the
port's zero-based position in the configured list: when the formatted name
fits the kernel limit, `kni_set_name` yields exactly `stem ++ idx`; the
name attached at creation (`kni_alloc`) is that very string; and the name
depends only on the stem and the index, never on the ports (in particular
never on a port's hardware id, however sparse, reordered or non-zero-based
the ids are). -/
theorem C1_names (cfg : config) (i : Nat)
    (hfit : (cfg.kni_ifname ++ toString i).length ≤ RTE_KNI_NAMESIZE - 1) :
    kni_set_name cfg i = cfg.kni_ifname ++ toString i ∧
    (∀ (env : Nat → PortHw) (p : netif_port) (k : rte_kni),
        kni_alloc cfg env i p = some k → k.conf.name = cfg.kni_ifname ++ toString i) ∧
    (∀ cfg' : config, cfg'.kni_ifname = cfg.kni_ifname →
        kni_set_name cfg' i = kni_set_name cfg i) := by
  have hname : kni_set_name cfg i = cfg.kni_ifname ++ toString i :=
    strTake_eq_of_le _ _ hfit
  refine ⟨hname, ?_, ?_⟩
  · intro env p k h
    exact ((kni_alloc_fields cfg env i p k h).2.1).trans hname
  · intro cfg' h
    simp [kni_set_name, h]

theorem C1_names_witness :
    ((cfgScenario.kni_ifname ++ toString 0).length ≤ RTE_KNI_NAMESIZE - 1) ∧
      kni_set_name cfgScenario 0 = cfgScenario.kni_ifname ++ toString 0 :=
  ⟨by decide, (C1_names cfgScenario 0 (by decide)).1⟩

/-- C7 counterexample: with a 40-character stem, `kni_set_name` silently
truncates the name to `RTE_KNI_NAMESIZE - 1` characters, and creation
(`kni_start`) nevertheless succeeds: no configuration error is raised over
name length, contradicting the claim that a non-fitting name fails creation
and that no input yields a truncated name. -/
theorem C7_truncation_counterexample :
    kni_set_name cfgLongName 0 ≠ cfgLongName.kni_ifname ++ toString 0 ∧
    (kni_set_name cfgLongName 0).length = RTE_KNI_NAMESIZE - 1 ∧
    (kni_start cfgLongName envAllOk).1 = 0 := by decide

/-- C7 amended: a name that fits is produced in full; a name that does not
fit is silently truncated by `snprintf` to the first `RTE_KNI_NAMESIZE - 1`
characters (so the written name always fits); and creation success is
independent of the configured name stem — name length is never a creation
error. -/
theorem C7_amended (cfg : config) (idx : Nat) (env : Nat → PortHw) (p : netif_port)
    (s : String) :
    ((cfg.kni_ifname ++ toString idx).length ≤ RTE_KNI_NAMESIZE - 1 →
        kni_set_name cfg idx = cfg.kni_ifname ++ toString idx) ∧
    (kni_set_name cfg idx).toList =
      (cfg.kni_ifname ++ toString idx).toList.take (RTE_KNI_NAMESIZE - 1) ∧
    (kni_set_name cfg idx).length ≤ RTE_KNI_NAMESIZE - 1 ∧
    (kni_alloc { cfg with kni_ifname := s } env idx p).isSome =
      (kni_alloc cfg env idx p).isSome := by
  refine ⟨fun h => strTake_eq_of_le _ _ h, rfl, strTake_length_le _ _, ?_⟩
  rw [kni_alloc_isSome, kni_alloc_isSome]

theorem C7_amended_witness :
    ((cfgScenario.kni_ifname ++ toString 1).length ≤ RTE_KNI_NAMESIZE - 1) ∧
      kni_set_name cfgScenario 1 = cfgScenario.kni_ifname ++ toString 1 :=
  ⟨by decide, (C7_amended cfgScenario 1 envAllOk ⟨5, none⟩ "x").1 (by decide)⟩

/-- C2 counterexample: on a port without a handle, `kni_send` (the
kernel→fast-path pump) is not a no-op avoiding all kernel operations: it
invokes `rte_kni_handle_request` and the `rte_kni_rx_burst` drain on the
absent handle (there is no NULL check in `kni_send`). -/
theorem C2_pump_counterexample :
    BridgeEvent.kniHandleRequest none ∈ (kni_send ⟨⟨7, none⟩⟩ [] ⟨0, 0, 0⟩).2 ∧
    BridgeEvent.kniRxBurst none ∈ (kni_send ⟨⟨7, none⟩⟩ [] ⟨0, 0, 0⟩).2 := by decide

/-- C2 amended: `kni_recv` on a handle-less port releases the buffer
(incrementing the drop counter) and returns normally with no kernel
operation; `kni_send`, by contrast, performs no handle check — it always
invokes the kernel request-servicing and drain operations first, passing
whatever handle the port has, absent included. -/
theorem C2_null_handle (pid : Nat) (txAccept : Bool) (m : Nat) (c : Counters)
    (ws : work_space) (queue : List Nat) :
    kni_recv ⟨⟨pid, none⟩⟩ txAccept m c =
      ({ c with drops := c.drops + 1 }, [BridgeEvent.mbufFree m]) ∧
    (kni_send ws queue c).2.take 2 =
      [BridgeEvent.kniHandleRequest ws.port.kni, BridgeEvent.kniRxBurst ws.port.kni] :=
  ⟨rfl, rfl⟩

theorem kni_sendLoop_eq (ms : List Nat) (c : Counters) :
    kni_sendLoop c ms =
      ({ c with kni_tx := c.kni_tx + ms.length }, ms.map BridgeEvent.txSend) := by
  induction ms generalizing c with
  | nil => rfl
  | cons m ms ih =>
      simp [kni_sendLoop, ih, List.length_cons]
      omega

/-- C3: in every invocation of `kni_send`, the `rte_kni_handle_request`
servicing event precedes the `rte_kni_rx_burst` drain event and all
per-buffer events in the trace; at most one batch of `NB_RXD` buffers is
drained per call; and each drained buffer contributes exactly one
`work_space_tx_send` hand-off and exactly one `net_stats_kni_tx` counter
increment. -/
theorem C3_send_order (ws : work_space) (queue : List Nat) (c : Counters) :
    kni_send ws queue c =
      ({ c with kni_tx := c.kni_tx + (queue.take NB_RXD).length },
       BridgeEvent.kniHandleRequest ws.port.kni :: BridgeEvent.kniRxBurst ws.port.kni ::
         (queue.take NB_RXD).map BridgeEvent.txSend) ∧
    (queue.take NB_RXD).length ≤ NB_RXD := by
  constructor
  · simp only [kni_send, kni_sendLoop_eq]
  · rw [List.length_take]
    exact Nat.min_le_left _ _

/-- C4: for every `kni_recv` call: with no handle the buffer is released to
its pool and the drop counter incremented, with no kernel operation in the
trace; with a handle and an accepting kernel queue, the kernel-direction
success counter is incremented once and the buffer is not released
(ownership transfers, no `mbufFree` event); with a rejecting queue the
buffer is released, the drop counter is incremented exactly once, and
exactly one submit attempt appears in the trace (no retry). -/
theorem C4_forward (pid : Nat) (k : rte_kni) (m : Nat) (c : Counters) :
    kni_recv ⟨⟨pid, none⟩⟩ true m c = kni_recv ⟨⟨pid, none⟩⟩ false m c ∧
    kni_recv ⟨⟨pid, none⟩⟩ true m c =
      ({ c with drops := c.drops + 1 }, [BridgeEvent.mbufFree m]) ∧
    kni_recv ⟨⟨pid, some k⟩⟩ true m c =
      ({ c with kni_rx := c.kni_rx + 1 }, [BridgeEvent.kniTxBurst (some k) m]) ∧
    kni_recv ⟨⟨pid, some k⟩⟩ false m c =
      ({ c with drops := c.drops + 1 },
       [BridgeEvent.kniTxBurst (some k) m, BridgeEvent.mbufFree m]) :=
  ⟨rfl, rfl, rfl, rfl⟩

theorem kni_createAux_ok (cfg : config) (env : Nat → PortHw) (idx : Nat)
    (ports : List netif_port) (h : ∀ p ∈ ports, allocEnvOk env p = true) :
    (kni_createAux cfg env idx ports).1 = 0 := by
  induction ports generalizing idx with
  | nil => rfl
  | cons p ps ih =>
      have hp : (kni_alloc cfg env idx p).isSome = true :=
        (kni_alloc_isSome cfg env idx p).trans (h p (by simp))
      obtain ⟨k, hk⟩ := Option.isSome_iff_exists.mp hp
      simp only [kni_createAux, hk]
      exact ih (idx + 1) (fun q hq => h q (by simp [hq]))

theorem kni_createAux_fail (cfg : config) (env : Nat → PortHw)
    (pre : List netif_port) (pfail : netif_port) (rest : List netif_port)
    (hok : ∀ p ∈ pre, allocEnvOk env p = true) (hf : allocEnvOk env pfail = false) :
    ∀ idx, (kni_createAux cfg env idx (pre ++ pfail :: rest)).1 = -1 ∧
      (kni_createAux cfg env idx (pre ++ pfail :: rest)).2.drop pre.length =
        pfail :: rest := by
  induction pre with
  | nil =>
      intro idx
      have hp : kni_alloc cfg env idx pfail = none := by
        have := kni_alloc_isSome cfg env idx pfail
        rw [hf] at this
        exact Option.not_isSome_iff_eq_none.mp (by simp [this])
      simp [kni_createAux, hp]
  | cons q pre' ih =>
      intro idx
      have hq : (kni_alloc cfg env idx q).isSome = true :=
        (kni_alloc_isSome cfg env idx q).trans (hok q (by simp))
      obtain ⟨k, hk⟩ := Option.isSome_iff_exists.mp hq
      have ih' := ih (fun p hp => hok p (by simp [hp])) (idx + 1)
      simp only [List.cons_append, kni_createAux, hk, List.length_cons, List.drop_succ_cons]
      exact ih'

/-- C5: `kni_start` (with the subsystem enabled) fails as a whole at the
first port, in list order, whose MTU-bounds query, MAC query, or
`rte_kni_alloc` fails, leaving the failing port (and everything after it)
exactly as it was — no partially-initialized handle attached; when those
three succeed for every port, start succeeds even if the secondary
`rte_eth_dev_get_mtu` query fails, and a handle created under a failed
secondary query keeps its zero-initialized current MTU. -/
theorem C5_start_failure (cfg : config) (env : Nat → PortHw) (hk : cfg.kni = true) :
    (∀ pre pfail rest, cfg.ports = pre ++ pfail :: rest →
        (∀ p ∈ pre, allocEnvOk env p = true) → allocEnvOk env pfail = false →
        (kni_start cfg env).1 = -1 ∧
          (kni_start cfg env).2.drop pre.length = pfail :: rest) ∧
    ((∀ p ∈ cfg.ports, allocEnvOk env p = true) → (kni_start cfg env).1 = 0) ∧
    (∀ idx p, allocEnvOk env p = true → (env (p.id % UINT16_MOD)).cur_mtu = none →
        ∃ k, kni_alloc cfg env idx p = some k ∧ k.conf.mtu = 0) := by
  refine ⟨?_, ?_, kni_alloc_mtu_of_none cfg env⟩
  · intro pre pfail rest hsplit hok hf
    have h := kni_createAux_fail cfg env pre pfail rest hok hf 0
    simpa [kni_start, kni_create, hk, hsplit] using h
  · intro h
    have := kni_createAux_ok cfg env 0 cfg.ports h
    simpa [kni_start, kni_create, hk] using this

theorem C5_start_failure_witness :
    (kni_start cfgScenario envFailAt2).1 = -1 ∧
      (kni_start cfgScenario envFailAt2).2.drop 1 = [⟨2, none⟩] := by
  have h := (C5_start_failure cfgScenario envFailAt2 rfl).1
    [⟨5, none⟩] ⟨2, none⟩ [] rfl (by decide) (by decide)
  simpa using h

theorem forall₂_fresh (l : List netif_port) (hl : ∀ q ∈ l, q.kni = none) :
    List.Forall₂ (fun p' q => p'.id = q.id ∧ ∀ k, p'.kni = some k →
      k.conf.group_id = q.id % UINT16_MOD) l l := by
  induction l with
  | nil => exact List.Forall₂.nil
  | cons x xs ihl =>
      refine List.Forall₂.cons ⟨rfl, ?_⟩ (ihl (fun q hq => hl q (by simp [hq])))
      intro k hx
      rw [hl x (by simp)] at hx
      cases hx

theorem kni_createAux_forall₂ (cfg : config) (env : Nat → PortHw)
    (ports : List netif_port) (hfresh : ∀ p ∈ ports, p.kni = none) :
    ∀ idx, List.Forall₂
      (fun p' p => p'.id = p.id ∧ ∀ k, p'.kni = some k →
        k.conf.group_id = p.id % UINT16_MOD)
      (kni_createAux cfg env idx ports).2 ports := by
  induction ports with
  | nil => intro idx; exact List.Forall₂.nil
  | cons p ps ih =>
      intro idx
      cases hak : kni_alloc cfg env idx p with
      | none =>
          simp only [kni_createAux, hak]
          exact forall₂_fresh _ hfresh
      | some k =>
          simp only [kni_createAux, hak]
          refine List.Forall₂.cons ⟨rfl, ?_⟩ (ih (fun q hq => hfresh q (by simp [hq])) (idx + 1))
          intro k' hk'
          cases hk'
          exact (kni_alloc_fields cfg env idx p k hak).1

/-- C6: every handle attached by `kni_start` carries a group id equal to its
owning port's hardware id narrowed to `uint16_t` (so the id itself whenever
it is in `uint16_t` range) — not its list position; positionally, the
result port list matches the input list id-for-id.  In the spec's concrete
scenario (ids 5 and 2, stem "kni"), start succeeds with names "kni0" and
"kni1" but group ids 5 and 2. -/
theorem C6_group_id (cfg : config) (env : Nat → PortHw)
    (hfresh : ∀ p ∈ cfg.ports, p.kni = none) :
    List.Forall₂
      (fun p' p => p'.id = p.id ∧ ∀ k, p'.kni = some k →
        k.conf.group_id = p.id % UINT16_MOD ∧ (p.id < UINT16_MOD → k.conf.group_id = p.id))
      (kni_start cfg env).2 cfg.ports ∧
    (kni_start cfgScenario envAllOk).1 = 0 ∧
    (kni_start cfgScenario envAllOk).2.map (fun p => p.kni.map
        (fun k => (k.conf.name, k.conf.group_id))) =
      [some ("kni0", 5), some ("kni1", 2)] := by
  refine ⟨?_, by decide, by decide⟩
  have base : List.Forall₂
      (fun p' p => p'.id = p.id ∧ ∀ k, p'.kni = some k →
        k.conf.group_id = p.id % UINT16_MOD)
      (kni_start cfg env).2 cfg.ports := by
    by_cases hkni : cfg.kni
    · simpa [kni_start, kni_create, hkni] using
        kni_createAux_forall₂ cfg env cfg.ports hfresh 0
    · simp only [kni_start, hkni, if_false]
      exact forall₂_fresh _ hfresh
  refine base.imp ?_
  intro p' p hp
  refine ⟨hp.1, fun k hk => ⟨hp.2 k hk, fun hlt => ?_⟩⟩
  rw [hp.2 k hk]
  exact Nat.mod_eq_of_lt hlt

theorem C6_group_id_witness :
    List.Forall₂
      (fun p' p => p'.id = p.id ∧ ∀ k, p'.kni = some k →
        k.conf.group_id = p.id % UINT16_MOD ∧ (p.id < UINT16_MOD → k.conf.group_id = p.id))
      (kni_start cfgScenario envAllOk).2 cfgScenario.ports :=
  (C6_group_id cfgScenario envAllOk (by decide)).1

theorem kni_free_eq (env : Nat → PortHw) (ports : List netif_port) :
    kni_free env ports =
      (ports.map (fun p => { p with kni := none }),
       (ports.map (stopEventsOf env)).flatten) := by
  induction ports with
  | nil => rfl
  | cons p ps ih =>
      cases hp : p.kni with
      | none =>
          have hpe : { p with kni := none } = p := by
            cases p
            simp_all
          simp [kni_free, hp, ih, stopEventsOf, hpe]
      | some k =>
          cases hr : (env p.id).releaseOk <;>
            simp [kni_free, hp, ih, stopEventsOf, hr]

/-- C8: with the subsystem enabled, `kni_stop` visits every configured port:
the resulting port list is the input list with every handle detached
(ports without a handle are unchanged and, per `stopEventsOf`, contribute no
release attempt), and the event trace is the concatenation, in list order,
of one release attempt per handle-carrying port — a failed release only
adds a log entry and does not stop the traversal, and the handle is
detached regardless of the release outcome. -/
theorem C8_stop_teardown (cfg : config) (env : Nat → PortHw) (hk : cfg.kni = true) :
    kni_stop cfg env =
      (cfg.ports.map (fun p => { p with kni := none }),
       (cfg.ports.map (stopEventsOf env)).flatten) := by
  simp [kni_stop, hk, kni_free_eq]

theorem C8_stop_teardown_witness :
    kni_stop cfgStopW envRelFail =
      ([⟨5, none⟩, ⟨9, none⟩],
       [StopEvent.release 5 false, StopEvent.logMsg "failed to free kni"]) :=
  (C8_stop_teardown cfgStopW envRelFail rfl).trans (by decide)

theorem kni_set_link_up_ret (cfg : config) (lenv : Nat → LinkEnv) (idx : Nat)
    (p : netif_port) :
    (kni_set_link_up cfg lenv idx p).1 = if linkStepOk lenv p then 0 else -1 := by
  cases hp : p.kni <;>
    cases hs : (lenv p.id).sockOk <;>
      cases hg : (lenv p.id).getFlagsRes <;>
        cases hf : (lenv p.id).setFlagsOk <;>
          simp [kni_set_link_up, linkStepOk, hp, hs, hg, hf]

theorem kni_link_upAux_ok (cfg : config) (lenv : Nat → LinkEnv)
    (ports : List netif_port) (h : ∀ p ∈ ports, linkStepOk lenv p = true) :
    ∀ idx, kni_link_upAux cfg lenv idx ports = (0, linkTraceOk cfg lenv idx ports) := by
  induction ports with
  | nil => intro idx; rfl
  | cons p ps ih =>
      intro idx
      have hr : (kni_set_link_up cfg lenv idx p).1 = 0 := by
        simp [kni_set_link_up_ret, h p (by simp)]
      simp [kni_link_upAux, hr, ih (fun q hq => h q (by simp [hq])) (idx + 1), linkTraceOk]

theorem kni_link_upAux_fail (cfg : config) (lenv : Nat → LinkEnv)
    (pre : List netif_port) (pfail : netif_port) (rest : List netif_port)
    (hok : ∀ p ∈ pre, linkStepOk lenv p = true) (hf : linkStepOk lenv pfail = false) :
    ∀ idx, kni_link_upAux cfg lenv idx (pre ++ pfail :: rest) =
      (-1, linkTraceOk cfg lenv idx pre ++
        (kni_set_link_up cfg lenv (idx + pre.length) pfail).2) := by
  induction pre with
  | nil =>
      intro idx
      have hr : (kni_set_link_up cfg lenv idx pfail).1 = -1 := by
        simp [kni_set_link_up_ret, hf]
      simp [kni_link_upAux, hr, linkTraceOk]
  | cons q pre' ih =>
      intro idx
      have hq : (kni_set_link_up cfg lenv idx q).1 = 0 := by
        simp [kni_set_link_up_ret, hok q (by simp)]
      have harith : idx + (pre'.length + 1) = idx + 1 + pre'.length := by omega
      simp [kni_link_upAux, hq, ih (fun p hp => hok p (by simp [hp])) (idx + 1),
        linkTraceOk, List.length_cons, harith]

/-- C9: `kni_link_up` processes the port list in order.  When every port
passes (a port without a handle is a success and contributes no OS calls),
it returns `0` with the concatenated per-port traces; on the first failing
port it returns `-1` having processed only the preceding ports and the
failing one, the remaining ports contributing nothing.  Per port with a
handle and a cooperating OS, the step opens the control socket, reads the
flags, writes them back with `IFF_UP` ORed in, and closes the socket, in
that order. -/
theorem C9_link_order (cfg : config) (lenv : Nat → LinkEnv) :
    ((∀ p ∈ cfg.ports, linkStepOk lenv p = true) →
        kni_link_up cfg lenv = (0, linkTraceOk cfg lenv 0 cfg.ports)) ∧
    (∀ pre pfail rest, cfg.ports = pre ++ pfail :: rest →
        (∀ p ∈ pre, linkStepOk lenv p = true) → linkStepOk lenv pfail = false →
        kni_link_up cfg lenv =
          (-1, linkTraceOk cfg lenv 0 pre ++
            (kni_set_link_up cfg lenv pre.length pfail).2)) ∧
    (∀ idx (pid : Nat), kni_set_link_up cfg lenv idx ⟨pid, none⟩ = (0, [])) ∧
    (∀ idx pid k flags, (lenv pid).sockOk = true →
        (lenv pid).getFlagsRes = some flags → (lenv pid).setFlagsOk = true →
        kni_set_link_up cfg lenv idx ⟨pid, some k⟩ =
          (0, [LinkEvent.sockOpen, LinkEvent.getFlags (kni_set_name cfg idx) (some flags),
               LinkEvent.setFlags (kni_set_name cfg idx) (flags ||| IFF_UP) true,
               LinkEvent.closeSock])) := by
  refine ⟨?_, ?_, ?_, ?_⟩
  · intro h
    exact kni_link_upAux_ok cfg lenv cfg.ports h 0
  · intro pre pfail rest hsplit hok hf
    have h := kni_link_upAux_fail cfg lenv pre pfail rest hok hf 0
    rw [kni_link_up, hsplit, h]
    simp
  · intro idx pid
    rfl
  · intro idx pid k flags hs hg hsf
    simp [kni_set_link_up, hs, hg, hsf]

theorem C9_link_order_witness :
    kni_link_up cfgLinkW lenvW =
      (-1, [LinkEvent.sockOpen, LinkEvent.getFlags "kni0" (some 2),
            LinkEvent.setFlags "kni0" 3 true, LinkEvent.closeSock,
            LinkEvent.sockOpen, LinkEvent.getFlags "kni1" none,
            LinkEvent.logMsg "kni get flags error", LinkEvent.closeSock]) := by
  have h := (C9_link_order cfgLinkW lenvW).2.1
    [⟨5, some kniSample⟩] ⟨2, some kniSample⟩ [] rfl (by decide) (by decide)
  exact h.trans (by decide)

/-- C10: for every link-up step on a port with a handle in which the control
socket is successfully opened, the trace contains exactly one socket-close
event and exactly one socket-open event — on the success path and on both
ioctl-failure paths alike, so failed link-ups do not leak open sockets. -/
theorem C10_socket_balance (cfg : config) (lenv : Nat → LinkEnv) (idx pid : Nat)
    (k : rte_kni) (hs : (lenv pid).sockOk = true) :
    (kni_set_link_up cfg lenv idx ⟨pid, some k⟩).2.countP isClose = 1 ∧
    (kni_set_link_up cfg lenv idx ⟨pid, some k⟩).2.countP isOpen = 1 := by
  cases hg : (lenv pid).getFlagsRes <;> cases hf : (lenv pid).setFlagsOk <;>
    simp [kni_set_link_up, hs, hg, hf, List.countP_cons, isClose, isOpen]

theorem C10_socket_balance_witness :
    (kni_set_link_up cfgLinkW lenvW 0 ⟨5, some kniSample⟩).2.countP isClose = 1 ∧
    (kni_set_link_up cfgLinkW lenvW 0 ⟨5, some kniSample⟩).2.countP isOpen = 1 :=
  C10_socket_balance cfgLinkW lenvW 0 5 kniSample (by decide)

end Dperf
